import Mathlib

/-!
Verification of the rule-based expense-insight engine of the
Smart-Finance-Manager repository (`home/ai_analyzer.py`), checked against its
natural-language specification.

Embedding conventions:
* `Decimal` and Python `float` amounts are modelled as exact rationals (ℚ);
  every numeric input exercised below is exactly representable, so the
  rational model and the concrete executions agree.
* Timestamps (`created_at`, `datetime.now()`) are modelled as integer day
  numbers; the 7-day and 30-day windows become `now - 7` / `now - 30`, the ISO
  calendar week of a timestamp is abstracted as `day / 7`, and
  `strftime('%d %b %Y')` is abstracted to rendering the day number.
* Python f-string formatting `:.0f`, `:.1f`, `:.2f` is modelled by rounding
  half-to-even (Python's float formatting rule) at the matching precision.
* A Django queryset is modelled as the list of records in iteration order;
  `filter(transaction_type='expense')` is `List.filter`, and
  `order_by('-created_at')` is a sort by `created_at` descending (tie order is
  unspecified in the source; the embedding uses a stable insertion sort).
-/

/-- A `Transaction` record (fields used by the engine): kind string
(`"expense"` or `"addition"`), amount, optional free-text description (empty
string models blank/null), category tag, creation timestamp. -/
structure Transaction where
  transaction_type : String
  amount : ℚ
  description : String
  category : String
  created_at : ℤ
deriving DecidableEq, Repr

/-- The `UserExpenseAccount` aggregate figures read by the engine. -/
structure Account where
  total_amount : ℚ
  current_balance : ℚ
  target_amount : ℚ
deriving DecidableEq, Repr

/-- The dictionary built by `prepare_expense_data`.  The `defaultdict`s are
modelled as association lists in key-insertion order. -/
structure ExpenseData where
  total_expenses : ℚ
  by_category : List (String × ℚ)
  by_week : List (String × ℚ)
  expense_count : ℕ
  average_expense : ℚ
  last_7_days : ℚ
  last_30_days : ℚ
deriving DecidableEq, Repr

/-- The initial dictionary of `prepare_expense_data` (all sums zero). -/
def initExpenseData : ExpenseData :=
  { total_expenses := 0, by_category := [], by_week := [], expense_count := 0
    average_expense := 0, last_7_days := 0, last_30_days := 0 }

/-- `defaultdict[k] += v`: add `v` at key `k`, appending the key at the end in
first-insertion order when absent. -/
def bump : List (String × ℚ) → String → ℚ → List (String × ℚ)
  | [], k, v => [(k, v)]
  | (k', v') :: rest, k, v =>
      if k' = k then (k', v' + v) :: rest else (k', v') :: bump rest k v

/-- `transactions.filter(transaction_type='expense')`. -/
def expensesOf (txs : List Transaction) : List Transaction :=
  txs.filter (fun t => t.transaction_type == "expense")

/-- Python round-half-to-even of a rational to an integer (the rounding used
by `format(x, '.0f')` and friends). -/
def roundHalfEven (q : ℚ) : ℤ :=
  let f : ℤ := Rat.floor q
  let r : ℚ := q - f
  if r < 1/2 then f
  else if 1/2 < r then f + 1
  else if f % 2 = 0 then f else f + 1

/-- `f"{q:.0f}"`. -/
def fmt0 (q : ℚ) : String := toString (roundHalfEven q)

/-- `f"{q:.1f}"`. -/
def fmt1 (q : ℚ) : String :=
  let n := roundHalfEven (q * 10)
  (if n < 0 then "-" else "") ++ toString (n.natAbs / 10) ++ "." ++ toString (n.natAbs % 10)

/-- `f"{q:.2f}"`. -/
def fmt2 (q : ℚ) : String :=
  let n := roundHalfEven (q * 100)
  let frac := n.natAbs % 100
  (if n < 0 then "-" else "") ++ toString (n.natAbs / 100) ++ "."
    ++ (if frac < 10 then "0" ++ toString frac else toString frac)

/-- One iteration of the `for transaction in expenses` loop of
`prepare_expense_data` (the `average_expense` field is set after the loop). -/
def prepStep (now : ℤ) (d : ExpenseData) (t : Transaction) : ExpenseData :=
  { total_expenses := d.total_expenses + t.amount
    by_category := bump d.by_category t.category t.amount
    by_week := bump d.by_week ("Week " ++ toString (t.created_at / 7)) t.amount
    expense_count := d.expense_count + 1
    average_expense := d.average_expense
    last_7_days := if now - 7 ≤ t.created_at then d.last_7_days + t.amount else d.last_7_days
    last_30_days := if now - 30 ≤ t.created_at then d.last_30_days + t.amount else d.last_30_days }

/-- `prepare_expense_data`: filter to expenses, accumulate the sums, then set
the mean under the explicit `expense_count > 0` guard. -/
def prepare_expense_data (transactions : List Transaction) (now : ℤ) : ExpenseData :=
  let d := (expensesOf transactions).foldl (prepStep now) initExpenseData
  if d.expense_count > 0 then
    { d with average_expense := d.total_expenses / (d.expense_count : ℚ) }
  else d

/-- Insert into a list sorted by `created_at` descending. -/
def insertDesc (t : Transaction) : List Transaction → List Transaction
  | [] => [t]
  | u :: rest =>
      if u.created_at < t.created_at then t :: u :: rest else u :: insertDesc t rest

/-- `order_by('-created_at')`: sort by timestamp, newest first. -/
def sortDesc : List Transaction → List Transaction
  | [] => []
  | t :: rest => insertDesc t (sortDesc rest)

/-- An anomaly record appended by `detect_anomalies`. -/
structure Anomaly where
  amount : ℚ
  description : String
  date : String
  category : String
  message : String
deriving DecidableEq, Repr

/-- The f-string `f'Unusually high expense: ₹{amount} (Avg: ₹{avg:.2f})'`. -/
def anomalyMessage (amount avg : ℚ) : String :=
  "Unusually high expense: ₹" ++ toString amount ++ " (Avg: ₹" ++ fmt2 avg ++ ")"

/-- The anomaly dictionary built for one flagged expense (`description or
'Expense'` defaults the empty description). -/
def mkAnomaly (avg : ℚ) (e : Transaction) : Anomaly :=
  { amount := e.amount
    description := if e.description = "" then "Expense" else e.description
    date := toString e.created_at
    category := e.category
    message := anomalyMessage e.amount avg }

/-- `detect_anomalies`: below 5 expense records return `[]`; otherwise flag,
among the 10 most recent expenses, those exceeding twice the mean of all
expense amounts.  The loop is transcribed as a fold appending to the
accumulator. -/
def detect_anomalies (transactions : List Transaction) : List Anomaly :=
  let expenses := sortDesc (expensesOf transactions)
  if expenses.length < 5 then []
  else
    let avg := (expenses.map (fun e => e.amount)).sum / (expenses.length : ℚ)
    (expenses.take 10).foldl
      (fun acc e => if e.amount > avg * 2 then acc ++ [mkAnomaly avg e] else acc) []

/-- `expense_percentage` of rule 1 (0 when `total_amount ≤ 0`, per the
explicit `account.total_amount > 0` guard). -/
def expensePct (d : ExpenseData) (acct : Account) : ℚ :=
  if acct.total_amount > 0 then d.total_expenses / acct.total_amount * 100 else 0

/-- Rule 1 (overall spending rate): returns `(tips, warnings, praise)`. -/
def rule1 (p : ℚ) : List String × List String × List String :=
  if p > 70 then
    (["Try to reduce daily expenses by 15-20% to stay within budget"],
     ["🚨 You\x27ve spent " ++ fmt1 p ++ "% of your total funds!"], [])
  else if p > 50 then
    (["Consider cutting non-essential expenses by 10%"],
     ["⚠️ Your spending is at " ++ fmt1 p ++ "% - watch your expenses"], [])
  else if p > 0 then
    ([], [], ["✅ Good job! You\x27re spending " ++ fmt1 p ++ "% - keep it controlled"])
  else ([], [], [])

/-- The chained conditional of rule 2 choosing, per category, the tip text and
the budget-suggestion string. -/
def categoryAdvice (cat : String) (amt : ℚ) : String × String :=
  if cat = "Food" then
    ("🍔 Try meal planning and cooking at home to save 20-30% on food",
     "₹" ++ fmt0 (amt * (7/10)) ++ " (reduce by 30%)")
  else if cat = "Shopping" then
    ("🛍️ Use the 30-day rule: wait 30 days before buying non-essentials",
     "₹" ++ fmt0 (amt * (6/10)) ++ " (reduce by 40%)")
  else if cat = "Entertainment" then
    ("🎬 Look for free events or share subscription costs with family",
     "₹" ++ fmt0 (amt * (7/10)) ++ " (reduce by 30%)")
  else if cat = "Transport" then
    ("🚗 Consider carpooling or public transport for daily commute",
     "₹" ++ fmt0 (amt * (8/10)) ++ " (reduce by 20%)")
  else
    ("Review your " ++ cat ++ " expenses and identify savings opportunities",
     "₹" ++ fmt0 (amt * (8/10)) ++ " (reduce by 20%)")

/-- Rule 2 loop over `by_category`: for each category above 30% of total,
append it to `overspending_categories`, a warning, a tip and a budget
suggestion.  Returns `(overspending, warnings, tips, budget_suggestions)`,
each in iteration order. -/
def rule2 (total : ℚ) : List (String × ℚ) → List String × List String × List String × List (String × String)
  | [] => ([], [], [], [])
  | (cat, amt) :: rest =>
      let pct := amt / total * 100
      let r := rule2 total rest
      if pct > 30 then
        (cat :: r.1,
         (cat ++ " is " ++ fmt0 pct ++ "% of your total spending") :: r.2.1,
         (categoryAdvice cat amt).1 :: r.2.2.1,
         (cat, (categoryAdvice cat amt).2) :: r.2.2.2)
      else r

/-- Rule 2 under its `total_exp > 0` guard. -/
def rule2G (d : ExpenseData) : List String × List String × List String × List (String × String) :=
  if d.total_expenses > 0 then rule2 d.total_expenses d.by_category else ([], [], [], [])

/-- Rule 3 (small frequent expenses). -/
def rule3T (d : ExpenseData) : List String :=
  if d.expense_count > 0 then
    if d.average_expense < 200 ∧ d.expense_count > 10 then
      ["☕ Small expenses add up! Track daily coffee/snacks - can save ₹2000+/month"]
    else []
  else []

/-- Rule 4 (weekly trend projection). -/
def rule4W (d : ExpenseData) : List String :=
  if d.last_7_days > 0 ∧ d.expense_count > 7 then
    ["📈 At current rate, you\x27ll spend ₹" ++ fmt0 (d.last_7_days / 7 * 30) ++ " this month"]
  else []

/-- Rule 5 (anomaly warnings): returns `(warnings, tips)`. -/
def rule5WT (anoms : List Anomaly) : List String × List String :=
  if anoms.length > 0 then
    (["⚡ Found " ++ toString anoms.length ++ " unusually high expenses - review them!"],
     ["Check your high-value transactions to identify one-time vs recurring expenses"])
  else ([], [])

/-- Rule 6 (savings-goal progress): returns `(praise, tips)`. -/
def rule6 (acct : Account) : List String × List String :=
  if acct.target_amount > 0 then
    let progress := acct.current_balance / acct.target_amount * 100
    if progress ≥ 100 then
      (["🎉 Congratulations! You\x27ve achieved your savings goal of ₹"
          ++ toString acct.target_amount ++ "!"], [])
    else if progress ≥ 75 then
      (["🏃 You\x27re " ++ fmt0 progress ++ "% to your goal! Just ₹"
          ++ fmt0 (acct.target_amount - acct.current_balance) ++ " more!"], [])
    else if progress ≥ 50 then
      (["💪 Halfway to your ₹" ++ toString acct.target_amount ++ " goal - keep going!"], [])
    else
      ([], ["🎯 Save ₹" ++ fmt0 (acct.target_amount - acct.current_balance)
          ++ " more to reach your target"])
  else ([], [])

/-- The fixed ordered list of 5 generic tips. -/
def default_tips : List String :=
  ["💡 Follow the 50/30/20 rule: 50% needs, 30% wants, 20% savings",
   "📝 Review your subscriptions - cancel unused ones",
   "🏦 Set up automatic savings transfers on payday",
   "🛒 Make a shopping list and stick to it to avoid impulse buys",
   "💳 Use cash for daily expenses to better control spending"]

/-- The `while len(tips) < 4 and default_tips` backfill loop, recursing on the
remaining default list. -/
def backfillLoop (tips : List String) : List String → List String
  | [] => tips
  | dflt :: rest =>
      if tips.length < 4 then backfillLoop (tips ++ [dflt]) rest else tips

/-- Backfill with the fixed generic-tip list. -/
def backfill (tips : List String) : List String := backfillLoop tips default_tips

/-- The summary string built at the end of `generate_rule_based_suggestions`. -/
def mkSummary (d : ExpenseData) (anoms : List Anomaly) (p : ℚ) : String :=
  "Total spending: ₹" ++ toString d.total_expenses ++ " across "
    ++ toString d.expense_count ++ " transactions. "
    ++ (if d.expense_count > 0 then "Average: ₹" ++ fmt0 d.average_expense ++ ". " else "")
    ++ (if anoms.length > 0 then
          "⚠️ " ++ toString anoms.length ++ " high-value expenses detected. " else "")
    ++ (if p > 60 then "Consider reducing expenses!" else "Keep up the good spending habits!")

/-- The insight bundle returned to the caller. -/
structure Bundle where
  summary : String
  tips : List String
  overspending : List String
  budget_suggestions : List (String × String)
  warnings : List String
  praise : List String
  anomalies : List Anomaly
  category_breakdown : List (String × ℚ)
deriving DecidableEq, Repr

/-- `generate_rule_based_suggestions`: rules 1-6 in source order, tip
backfill, summary, and the final `[:5]` / `[:5]` / `[:3]` truncation. -/
def generate_rule_based_suggestions (d : ExpenseData) (acct : Account)
    (anoms : List Anomaly) : Bundle :=
  let p := expensePct d acct
  let r1 := rule1 p
  let r2 := rule2G d
  let r5 := rule5WT anoms
  let r6 := rule6 acct
  let tips := backfill (r1.1 ++ r2.2.2.1 ++ rule3T d ++ r5.2 ++ r6.2)
  let warnings := r1.2.1 ++ r2.2.1 ++ rule4W d ++ r5.1
  let praise := r1.2.2 ++ r6.1
  { summary := mkSummary d anoms p
    tips := tips.take 5
    overspending := r2.1
    budget_suggestions := r2.2.2.2
    warnings := warnings.take 5
    praise := praise.take 3
    anomalies := anoms
    category_breakdown := d.by_category }

/-- `analyze_expenses_with_ai`: aggregate, detect anomalies, evaluate the
rules.  The wall-clock `datetime.now()` read inside `prepare_expense_data` is
passed explicitly as `now`. -/
def analyze_expenses_with_ai (transactions : List Transaction) (account : Account)
    (now : ℤ) : Bundle :=
  generate_rule_based_suggestions (prepare_expense_data transactions now) account
    (detect_anomalies transactions)

/-! ### Exception-level embedding (engine failure on malformed amounts)

A transaction whose `amount` is not a number is modelled with `Option ℚ`
(`none` = malformed).  The first arithmetic use of a malformed amount —
`data['total_expenses'] += amount` inside `prepare_expense_data` — raises a
built-in `TypeError` in Python; fallible execution is modelled with `Except`
carrying the exception's name. -/

/-- A transaction record whose amount may be malformed (non-numeric). -/
structure TransactionE where
  transaction_type : String
  amount : Option ℚ
  description : String
  category : String
  created_at : ℤ
deriving DecidableEq, Repr

/-- Read a possibly-malformed record as a plain one (the default is never
reached on paths that have already validated the amount). -/
def toTransaction (t : TransactionE) : Transaction :=
  { transaction_type := t.transaction_type, amount := t.amount.getD 0
    description := t.description, category := t.category, created_at := t.created_at }

/-- One loop iteration of `prepare_expense_data` over a possibly-malformed
record: `Decimal + non-number` raises `TypeError`. -/
def prepStepE (now : ℤ) (d : ExpenseData) (t : TransactionE) : Except String ExpenseData :=
  match t.amount with
  | none => .error "TypeError"
  | some _ => .ok (prepStep now d (toTransaction t))

/-- `prepare_expense_data` with exception propagation. -/
def prepareE (transactions : List TransactionE) (now : ℤ) : Except String ExpenseData := do
  let d ← (transactions.filter (fun t => t.transaction_type == "expense")).foldlM
    (prepStepE now) initExpenseData
  pure (if d.expense_count > 0 then
    { d with average_expense := d.total_expenses / (d.expense_count : ℚ) } else d)

/-- `analyze_expenses_with_ai` with exception propagation: aggregation runs
first and raises on the first malformed expense amount; on success the
remaining (exception-free) stages run as in the plain embedding. -/
def analyzeE (transactions : List TransactionE) (account : Account) (now : ℤ) :
    Except String Bundle := do
  let d ← prepareE transactions now
  pure (generate_rule_based_suggestions d account
    (detect_anomalies (transactions.map toTransaction)))

/-- The degraded fallback bundle built in the `except` branch of the `home`
view (`views.py`). -/
def default_bundle : Bundle :=
  { summary := "Analysis temporarily unavailable", tips := [], overspending := []
    budget_suggestions := [], warnings := [], praise := [], anomalies := []
    category_breakdown := [] }

/-- The caller (`home` view): invoke the engine, catch any exception and
substitute the degraded default bundle. -/
def homeInsights (transactions : List TransactionE) (account : Account) (now : ℤ) : Bundle :=
  match analyzeE transactions account now with
  | .ok b => b
  | .error _ => default_bundle

/-! ### State-transformer view of an engine invocation

The engine's source only reads `account.total_amount`, `current_balance`,
`target_amount` and the transaction fields; it contains no attribute
assignment and no ORM write.  Its embedding as a transformer of the mutable
world (account record plus transaction store) therefore returns that world
unchanged alongside the bundle. -/

/-- The mutable state visible to an engine invocation. -/
structure WorldState where
  account : Account
  transactions : List Transaction
deriving DecidableEq, Repr

/-- An engine invocation as a state transformer: the write-free source yields
the identity on the world component. -/
def runEngine (s : WorldState) (now : ℤ) : WorldState × Bundle :=
  (s, analyze_expenses_with_ai s.transactions s.account now)

/-! ### Specification-side definitions (from the spec's wording, for
refinement comparisons against the source-derived definitions above) -/

/-- Spec: "the arithmetic mean over all expense amounts" (over the unsorted
expense sublist). -/
def meanExpense (txs : List Transaction) : ℚ :=
  ((expensesOf txs).map (fun e => e.amount)).sum / ((expensesOf txs).length : ℚ)

/-- Spec §4.2: exactly those of the 10 most-recent expenses (timestamp
descending) whose amount exceeds `2 × mean` are flagged, in order. -/
def anomaliesSpec (txs : List Transaction) : List Anomaly :=
  let m := meanExpense txs
  (((sortDesc (expensesOf txs)).take 10).filter (fun e => e.amount > 2 * m)).map (mkAnomaly m)

/-- Spec §4.3 rule 2: the fixed lookup table category → reduction multiplier
(Food→0.7, Shopping→0.6, Entertainment→0.7, Transport→0.8, default→0.8). -/
def specMultiplier (cat : String) : ℚ :=
  if cat = "Food" then 7/10
  else if cat = "Shopping" then 6/10
  else if cat = "Entertainment" then 7/10
  else if cat = "Transport" then 8/10
  else 8/10

/-- Spec §4.3 rule 2: the fixed lookup table category → tip text. -/
def specTipText (cat : String) : String :=
  if cat = "Food" then "🍔 Try meal planning and cooking at home to save 20-30% on food"
  else if cat = "Shopping" then "🛍️ Use the 30-day rule: wait 30 days before buying non-essentials"
  else if cat = "Entertainment" then "🎬 Look for free events or share subscription costs with family"
  else if cat = "Transport" then "🚗 Consider carpooling or public transport for daily commute"
  else "Review your " ++ cat ++ " expenses and identify savings opportunities"

/-- The budget-suggestion string determined by the spec's lookup: the capped
amount is `amount × multiplier` rendered with no decimals, and the suffix
names the complementary reduction percentage. -/
def specBudget (cat : String) (amt : ℚ) : String :=
  "₹" ++ fmt0 (amt * specMultiplier cat) ++ " (reduce by "
    ++ fmt0 ((1 - specMultiplier cat) * 100) ++ "%)"

/-- The candidate tips collected by rules 1-6 before backfill and truncation. -/
def candidateTips (d : ExpenseData) (acct : Account) (anoms : List Anomaly) : List String :=
  (rule1 (expensePct d acct)).1 ++ (rule2G d).2.2.1 ++ rule3T d
    ++ (rule5WT anoms).2 ++ (rule6 acct).2

/-- The candidate warnings collected by rules 1-5 before truncation. -/
def candidateWarnings (d : ExpenseData) (acct : Account) (anoms : List Anomaly) : List String :=
  (rule1 (expensePct d acct)).2.1 ++ (rule2G d).2.1 ++ rule4W d ++ (rule5WT anoms).1

/-- The candidate praise entries collected by rules 1 and 6 before truncation. -/
def candidatePraise (d : ExpenseData) (acct : Account) : List String :=
  (rule1 (expensePct d acct)).2.2 ++ (rule6 acct).1

/-! ### Helper lemmas -/

deriving instance DecidableEq for Except

/-- The conditional-append loop of `detect_anomalies` computes a
filter-then-map. -/
theorem foldl_guard_append {α β : Type} (P : α → Prop) [DecidablePred P] (f : α → β) :
    ∀ (l : List α) (acc : List β),
      l.foldl (fun a e => if P e then a ++ [f e] else a) acc
        = acc ++ (l.filter (fun e => P e)).map f
  | [], acc => by simp
  | x :: l, acc => by
    simp only [List.foldl_cons, List.filter_cons]
    by_cases h : P x
    · simp [h, foldl_guard_append P f l]
    · simp [h, foldl_guard_append P f l]

theorem insertDesc_perm (t : Transaction) : ∀ l : List Transaction,
    (insertDesc t l).Perm (t :: l)
  | [] => List.Perm.refl _
  | u :: rest => by
    simp only [insertDesc]
    split
    · exact List.Perm.refl _
    · exact ((insertDesc_perm t rest).cons u).trans (List.Perm.swap t u rest)

theorem sortDesc_perm : ∀ l : List Transaction, (sortDesc l).Perm l
  | [] => List.Perm.refl _
  | t :: rest => (insertDesc_perm t (sortDesc rest)).trans ((sortDesc_perm rest).cons t)

theorem sortDesc_length (l : List Transaction) : (sortDesc l).length = l.length :=
  (sortDesc_perm l).length_eq

theorem sortDesc_amount_sum (l : List Transaction) :
    ((sortDesc l).map (fun e => e.amount)).sum = (l.map (fun e => e.amount)).sum :=
  ((sortDesc_perm l).map _).sum_eq

/-- The `while len(tips) < 4 and default_tips` loop appends, in order, exactly
enough of the pending defaults to reach 4 (or all of them). -/
theorem backfillLoop_eq : ∀ (ds : List String) (tips : List String),
    backfillLoop tips ds = if tips.length < 4 then tips ++ ds.take (4 - tips.length) else tips
  | [], tips => by simp [backfillLoop]
  | dflt :: rest, tips => by
    simp only [backfillLoop]
    by_cases h : tips.length < 4
    · rw [if_pos h, backfillLoop_eq rest (tips ++ [dflt])]
      simp only [List.length_append, List.length_cons, List.length_nil, Nat.zero_add]
      by_cases h2 : tips.length + 1 < 4
      · rw [if_pos h2]
        have h3 : 4 - tips.length = (4 - (tips.length + 1)) + 1 := by omega
        rw [h3]
        simp [List.take_succ_cons, List.append_assoc]
        rw [if_pos h]
      · rw [if_neg h2]
        have h3 : 4 - tips.length = 1 := by omega
        rw [h3]
        simp [List.take_succ_cons]
        rw [if_pos h]
    · rw [if_neg h, if_neg h]

theorem backfill_eq (tips : List String) :
    backfill tips = if tips.length < 4 then tips ++ default_tips.take (4 - tips.length) else tips :=
  backfillLoop_eq default_tips tips

theorem backfill_ex_append (tips : List String) : ∃ e, backfill tips = tips ++ e := by
  rw [backfill_eq]; split
  · exact ⟨_, rfl⟩
  · exact ⟨[], by simp⟩

theorem backfill_length_of_lt (tips : List String) (h : tips.length < 4) :
    (backfill tips).length = 4 := by
  rw [backfill_eq, if_pos h]
  simp [default_tips]
  omega

theorem bump_snd_sum : ∀ (m : List (String × ℚ)) (k : String) (v : ℚ),
    ((bump m k v).map Prod.snd).sum = (m.map Prod.snd).sum + v
  | [], k, v => by simp [bump]
  | (k', v') :: rest, k, v => by
    simp only [bump]
    split
    · simp
      ring
    · simp [bump_snd_sum rest k v]
      ring

/-- Loop invariant of `prepare_expense_data`: both the category rollup and the
running total accumulate exactly the amounts seen. -/
theorem prep_foldl_inv (now : ℤ) : ∀ (l : List Transaction) (d : ExpenseData),
    ((((l.foldl (prepStep now) d).by_category).map Prod.snd).sum
        = (d.by_category.map Prod.snd).sum + (l.map (fun t => t.amount)).sum)
    ∧ ((l.foldl (prepStep now) d).total_expenses
        = d.total_expenses + (l.map (fun t => t.amount)).sum)
  | [], d => by simp
  | t :: l, d => by
    have ih := prep_foldl_inv now l (prepStep now d t)
    constructor
    · rw [List.foldl_cons, ih.1]
      simp [prepStep, bump_snd_sum]
      ring
    · rw [List.foldl_cons, ih.2]
      simp [prepStep]
      ring

theorem rule1_high {p : ℚ} (h : p > 70) :
    rule1 p = (["Try to reduce daily expenses by 15-20% to stay within budget"],
      ["🚨 You\x27ve spent " ++ fmt1 p ++ "% of your total funds!"], []) := by
  simp [rule1, h]

theorem rule1_med {p : ℚ} (h1 : p > 50) (h2 : ¬ p > 70) :
    rule1 p = (["Consider cutting non-essential expenses by 10%"],
      ["⚠️ Your spending is at " ++ fmt1 p ++ "% - watch your expenses"], []) := by
  simp [rule1, h1, h2]

theorem rule1_low {p : ℚ} (h1 : p > 0) (h2 : ¬ p > 50) :
    rule1 p = ([], [],
      ["✅ Good job! You\x27re spending " ++ fmt1 p ++ "% - keep it controlled"]) := by
  have h3 : ¬ p > 70 := fun hc => h2 (by linarith)
  simp [rule1, h1, h2, h3]

theorem rule1_zero {p : ℚ} (h : ¬ p > 0) : rule1 p = ([], [], []) := by
  have h2 : ¬ p > 50 := fun hc => h (by linarith)
  have h3 : ¬ p > 70 := fun hc => h (by linarith)
  simp [rule1, h, h2, h3]

/-- Every category above the 30% share is recorded in all four outputs of the
rule-2 loop. -/
theorem rule2_mem (total : ℚ) : ∀ (cats : List (String × ℚ)) (cat : String) (amt : ℚ),
    (cat, amt) ∈ cats → amt / total * 100 > 30 →
      cat ∈ (rule2 total cats).1
      ∧ (cat ++ " is " ++ fmt0 (amt / total * 100) ++ "% of your total spending")
          ∈ (rule2 total cats).2.1
      ∧ (categoryAdvice cat amt).1 ∈ (rule2 total cats).2.2.1
      ∧ (cat, (categoryAdvice cat amt).2) ∈ (rule2 total cats).2.2.2
  | [], cat, amt, hmem, _ => absurd hmem (List.not_mem_nil _)
  | (c, a) :: rest, cat, amt, hmem, hpct => by
    rcases List.mem_cons.mp hmem with heq | htail
    · injection heq with h1 h2
      subst h1
      subst h2
      simp only [rule2]
      rw [if_pos hpct]
      exact ⟨List.mem_cons_self _ _, List.mem_cons_self _ _,
        List.mem_cons_self _ _, List.mem_cons_self _ _⟩
    · have ih := rule2_mem total rest cat amt htail hpct
      simp only [rule2]
      by_cases hc : a / total * 100 > 30
      · rw [if_pos hc]
        exact ⟨List.mem_cons_of_mem _ ih.1, List.mem_cons_of_mem _ ih.2.1,
          List.mem_cons_of_mem _ ih.2.2.1, List.mem_cons_of_mem _ ih.2.2.2⟩
      · rw [if_neg hc]
        exact ih

/-- Categories absent from the rollup never get a budget suggestion. -/
theorem rule2_budget_not_mem (total : ℚ) : ∀ (cats : List (String × ℚ)) (cat : String),
    cat ∉ cats.map Prod.fst →
      (rule2 total cats).2.2.2.filter (fun e => e.1 = cat) = []
  | [], cat, _ => by simp [rule2]
  | (c, a) :: rest, cat, hn => by
    have hcne : ¬ c = cat := fun hc => hn (by simp [hc])
    have hn' : cat ∉ rest.map Prod.fst := fun hc => hn (by simp [hc])
    simp only [rule2]
    by_cases hc : a / total * 100 > 30
    · rw [if_pos hc]
      simp only [List.filter_cons]
      simp [hcne, rule2_budget_not_mem total rest cat hn']
    · rw [if_neg hc]
      exact rule2_budget_not_mem total rest cat hn'

/-- With distinct rollup keys, a qualifying category gets exactly one budget
suggestion, and looking it up returns the advice string for its amount. -/
theorem rule2_budget_unique (total : ℚ) : ∀ (cats : List (String × ℚ)) (cat : String) (amt : ℚ),
    (cats.map Prod.fst).Nodup → (cat, amt) ∈ cats → amt / total * 100 > 30 →
      List.lookup cat (rule2 total cats).2.2.2 = some (categoryAdvice cat amt).2
      ∧ ((rule2 total cats).2.2.2.filter (fun e => e.1 = cat)).length = 1
  | [], cat, amt, _, hmem, _ => absurd hmem (List.not_mem_nil _)
  | (c, a) :: rest, cat, amt, hnd, hmem, hpct => by
    have hnd2 : c ∉ rest.map Prod.fst ∧ (rest.map Prod.fst).Nodup := by
      rw [List.map_cons] at hnd
      exact List.nodup_cons.mp hnd
    rcases List.mem_cons.mp hmem with heq | htail
    · injection heq with h1 h2
      subst h1
      subst h2
      simp only [rule2]
      rw [if_pos hpct]
      constructor
      · simp [List.lookup]
      · have hrest := rule2_budget_not_mem total rest cat hnd2.1
        rw [List.filter_cons]
        simp [hrest]
    · have hcatin : cat ∈ rest.map Prod.fst := List.mem_map.mpr ⟨(cat, amt), htail, rfl⟩
      have hcne : ¬ c = cat := fun hc => hnd2.1 (hc ▸ hcatin)
      have ih := rule2_budget_unique total rest cat amt hnd2.2 htail hpct
      simp only [rule2]
      by_cases hc : a / total * 100 > 30
      · rw [if_pos hc]
        constructor
        · simp only [List.lookup]
          rw [show (cat == c) = false from beq_eq_false_iff_ne.mpr (Ne.symm hcne)]
          exact ih.1
        · simp only [List.filter_cons]
          simp [hcne, ih.2]
      · rw [if_neg hc]
        exact ih

theorem reduce30_str : " (reduce by " ++ ("30" ++ "%)") = " (reduce by 30%)" := by decide

theorem reduce40_str : " (reduce by " ++ ("40" ++ "%)") = " (reduce by 40%)" := by decide

theorem reduce20_str : " (reduce by " ++ ("20" ++ "%)") = " (reduce by 20%)" := by decide

unseal Rat.add Rat.mul Rat.inv Rat.sub in
theorem fmt0_thirty : fmt0 ((1 - (7:ℚ)/10) * 100) = "30" := by decide

unseal Rat.add Rat.mul Rat.inv Rat.sub in
theorem fmt0_forty : fmt0 ((1 - (6:ℚ)/10) * 100) = "40" := by decide

unseal Rat.add Rat.mul Rat.inv Rat.sub in
theorem fmt0_twenty : fmt0 ((1 - (8:ℚ)/10) * 100) = "20" := by decide

/-- The chained conditional of rule 2 agrees with the spec's explicit lookup
tables: tip text and a cap of `amount × multiplier` (no decimals) with the
complementary reduction percentage. -/
theorem categoryAdvice_spec (cat : String) (amt : ℚ) :
    categoryAdvice cat amt = (specTipText cat, specBudget cat amt) := by
  by_cases hF : cat = "Food"
  · subst hF
    simp [categoryAdvice, specTipText, specBudget, specMultiplier, fmt0_thirty,
      String.append_assoc, reduce30_str]
  · by_cases hS : cat = "Shopping"
    · subst hS
      simp [categoryAdvice, specTipText, specBudget, specMultiplier, fmt0_forty,
        String.append_assoc, reduce40_str]
    · by_cases hE : cat = "Entertainment"
      · subst hE
        simp [categoryAdvice, specTipText, specBudget, specMultiplier, fmt0_thirty,
          String.append_assoc, reduce30_str]
      · by_cases hT : cat = "Transport"
        · subst hT
          simp [categoryAdvice, specTipText, specBudget, specMultiplier, fmt0_twenty,
            String.append_assoc, reduce20_str]
        · simp [categoryAdvice, specTipText, specBudget, specMultiplier, hF, hS, hE, hT,
            fmt0_twenty, String.append_assoc, reduce20_str]

/-- Filtering to expenses commutes with reading malformed records as plain
ones (the kind field is untouched). -/
theorem filterE_map : ∀ txs : List TransactionE,
    (txs.map toTransaction).filter (fun t => t.transaction_type == "expense")
      = (txs.filter (fun t => t.transaction_type == "expense")).map toTransaction
  | [] => rfl
  | t :: txs => by
    simp only [List.map_cons, List.filter_cons]
    have hty : (toTransaction t).transaction_type = t.transaction_type := rfl
    rw [hty]
    cases h : t.transaction_type == "expense"
    · simp [filterE_map txs]
    · simp [filterE_map txs]

/-- With every amount well-formed, the fallible aggregation loop succeeds and
computes what the plain loop computes. -/
theorem foldlM_prepE_ok (now : ℤ) : ∀ (l : List TransactionE) (d : ExpenseData),
    (∀ t ∈ l, t.amount ≠ none) →
      l.foldlM (prepStepE now) d = .ok ((l.map toTransaction).foldl (prepStep now) d)
  | [], _, _ => rfl
  | t :: l, d, h => by
    match hamt : t.amount with
    | none => exact absurd hamt (h t (List.mem_cons_self t l))
    | some a =>
      rw [List.foldlM_cons, List.map_cons, List.foldl_cons]
      simp only [prepStepE, hamt]
      rw [show ∀ x (f : ExpenseData → Except String ExpenseData),
            (Except.ok x : Except String ExpenseData) >>= f = f x from fun _ _ => rfl]
      exact foldlM_prepE_ok now l _ (fun u hu => h u (List.mem_cons_of_mem _ hu))

/-- A malformed amount anywhere in the loop makes the whole fold raise
`TypeError` (at the first such record). -/
theorem foldlM_prepE_err (now : ℤ) : ∀ (l : List TransactionE) (d : ExpenseData),
    (∃ t ∈ l, t.amount = none) → l.foldlM (prepStepE now) d = .error "TypeError"
  | [], _, h => absurd h (by simp)
  | t :: l, d, h => by
    match hamt : t.amount with
    | none =>
      rw [List.foldlM_cons]
      simp only [prepStepE, hamt]
      rfl
    | some a =>
      have htail : ∃ u ∈ l, u.amount = none := by
        rcases h with ⟨u, hu, hnone⟩
        rcases List.mem_cons.mp hu with rfl | hul
        · rw [hamt] at hnone
          exact absurd hnone (by simp)
        · exact ⟨u, hul, hnone⟩
      rw [List.foldlM_cons]
      simp only [prepStepE, hamt]
      rw [show ∀ x (f : ExpenseData → Except String ExpenseData),
            (Except.ok x : Except String ExpenseData) >>= f = f x from fun _ _ => rfl]
      exact foldlM_prepE_err now l _ htail

/-- On inputs whose expense-kind amounts are all well-formed, the fallible
aggregator returns exactly the plain aggregator's output. -/
theorem prepareE_ok (txs : List TransactionE) (now : ℤ)
    (h : ∀ t ∈ txs, t.transaction_type = "expense" → t.amount ≠ none) :
    prepareE txs now = .ok (prepare_expense_data (txs.map toTransaction) now) := by
  have hf : ∀ t ∈ txs.filter (fun t => t.transaction_type == "expense"), t.amount ≠ none := by
    intro t ht
    have hm := List.mem_filter.mp ht
    exact h t hm.1 (by simpa using hm.2)
  unfold prepareE prepare_expense_data expensesOf
  rw [foldlM_prepE_ok now _ initExpenseData hf, filterE_map txs]
  rfl

/-- A malformed expense-kind amount makes the fallible aggregator raise
`TypeError`. -/
theorem prepareE_err (txs : List TransactionE) (now : ℤ)
    (h : ∃ t ∈ txs, t.transaction_type = "expense" ∧ t.amount = none) :
    prepareE txs now = .error "TypeError" := by
  have hf : ∃ t ∈ txs.filter (fun t => t.transaction_type == "expense"), t.amount = none := by
    rcases h with ⟨t, ht, hty, hnone⟩
    exact ⟨t, List.mem_filter.mpr ⟨ht, by simpa using hty⟩, hnone⟩
  unfold prepareE
  rw [foldlM_prepE_err now _ initExpenseData hf]
  rfl

theorem analyzeE_ok (txs : List TransactionE) (acct : Account) (now : ℤ)
    (h : ∀ t ∈ txs, t.transaction_type = "expense" → t.amount ≠ none) :
    analyzeE txs acct now = .ok (analyze_expenses_with_ai (txs.map toTransaction) acct now) := by
  unfold analyzeE analyze_expenses_with_ai
  rw [prepareE_ok txs now h]
  rfl

theorem analyzeE_err (txs : List TransactionE) (acct : Account) (now : ℤ)
    (h : ∃ t ∈ txs, t.transaction_type = "expense" ∧ t.amount = none) :
    analyzeE txs acct now = .error "TypeError" := by
  unfold analyzeE
  rw [prepareE_err txs now h]
  rfl

/-! ### Concrete fixtures -/

/-- The spec's anomaly example: amounts 10, 10, 10, 10, 100. -/
def tx100 : Transaction :=
  { transaction_type := "expense", amount := 100, description := "big"
    category := "Shopping", created_at := 5 }

def ex5 : List Transaction :=
  [{ transaction_type := "expense", amount := 10, description := "a"
     category := "Food", created_at := 1 },
   { transaction_type := "expense", amount := 10, description := "b"
     category := "Food", created_at := 2 },
   { transaction_type := "expense", amount := 10, description := "c"
     category := "Food", created_at := 3 },
   { transaction_type := "expense", amount := 10, description := ""
     category := "Food", created_at := 4 },
   tx100]

/-- The spec's category-rule example: Food is 400 of 1000. -/
def dFood : ExpenseData :=
  { total_expenses := 1000, by_category := [("Food", 400), ("Other", 600)], by_week := []
    expense_count := 5, average_expense := 200, last_7_days := 0, last_30_days := 1000 }

def acct0 : Account := { total_amount := 2000, current_balance := 1000, target_amount := 0 }

/-- The spec's spend-rate example: 750 spent of a 1000 total. -/
def d750 : ExpenseData :=
  { total_expenses := 750, by_category := [("Other", 750)], by_week := []
    expense_count := 3, average_expense := 250, last_7_days := 0, last_30_days := 750 }

def acct1000 : Account := { total_amount := 1000, current_balance := 250, target_amount := 0 }

/-- An aggregate that makes rules 1, 2 (three categories), 3, 5 and 6 all emit
tips: 7 candidate tips in total. -/
def d7 : ExpenseData :=
  { total_expenses := 750
    by_category := [("Food", 260), ("Shopping", 250), ("Entertainment", 240)], by_week := []
    expense_count := 11, average_expense := 750/11, last_7_days := 0, last_30_days := 750 }

def acct7 : Account := { total_amount := 1000, current_balance := 100, target_amount := 1000 }

def anom1 : Anomaly :=
  { amount := 300, description := "x", date := "1", category := "Food", message := "m" }

/-- An account with an unmet savings goal (empty-input counterexample). -/
def acctGoal : Account := { total_amount := 0, current_balance := 0, target_amount := 100 }

/-- An expense record with a malformed (non-numeric) amount. -/
def badTx : TransactionE :=
  { transaction_type := "expense", amount := none, description := "corrupt"
    category := "Food", created_at := 1 }

/-- An addition record with a malformed amount (never read by the engine). -/
def badAdd : TransactionE :=
  { transaction_type := "addition", amount := none, description := "corrupt"
    category := "Food", created_at := 2 }

/-- A collection holding only an addition-kind record. -/
def addOnly : List Transaction :=
  [{ transaction_type := "addition", amount := 50, description := ""
     category := "Other", created_at := 3 }]

/-! ### Concrete evaluations (closed computations used by the claim proofs) -/

unseal Rat.add Rat.mul Rat.inv Rat.sub in
theorem detect_ex5_eval : detect_anomalies ex5 = [mkAnomaly 28 tx100] := by decide

unseal Rat.add Rat.mul Rat.inv Rat.sub in
theorem mean_ex5_eval : meanExpense ex5 = 28 := by decide

unseal Rat.add Rat.mul Rat.inv Rat.sub in
theorem pct_d750_eval : expensePct d750 acct1000 = 75 := by decide

unseal Rat.add Rat.mul Rat.inv Rat.sub in
theorem warnings_d750_eval : (generate_rule_based_suggestions d750 acct1000 []).warnings
    = ["🚨 You\x27ve spent 75.0% of your total funds!",
       "Other is 100% of your total spending"] := by decide

unseal Rat.add Rat.mul Rat.inv Rat.sub in
theorem praise_d750_eval : (generate_rule_based_suggestions d750 acct1000 []).praise = [] := by
  decide

unseal Rat.add Rat.mul Rat.inv Rat.sub in
theorem food_budget_eval :
    List.lookup "Food" (generate_rule_based_suggestions dFood acct0 []).budget_suggestions
      = some "₹280 (reduce by 30%)" := by decide

unseal Rat.add Rat.mul Rat.inv Rat.sub in
theorem food_pct_eval : (400 : ℚ) / dFood.total_expenses * 100 > 30 := by decide

unseal Rat.add Rat.mul Rat.inv Rat.sub in
theorem empty_goal_eval :
    ((analyze_expenses_with_ai [] acctGoal 0).tips.filter (fun t => t ∈ default_tips)).length = 3
    ∧ ¬ 4 ≤ ((analyze_expenses_with_ai [] acctGoal 0).tips.filter
        (fun t => t ∈ default_tips)).length
    ∧ (analyze_expenses_with_ai [] acctGoal 0).tips.length = 4 := by decide

unseal Rat.add Rat.mul Rat.inv Rat.sub in
theorem tips7_len_eval : (candidateTips d7 acct7 [anom1]).length = 7 := by decide

unseal Rat.add Rat.mul Rat.inv Rat.sub in
theorem tips7_take_eval : (generate_rule_based_suggestions d7 acct7 [anom1]).tips.length = 5
    ∧ (generate_rule_based_suggestions d7 acct7 [anom1]).tips
        = (candidateTips d7 acct7 [anom1]).take 5 := by decide

/-- With at least 5 expense records, the detector equals its specification:
flag exactly the above-threshold members of the 10-most-recent window. -/
theorem detect_anomalies_eq (txs : List Transaction)
    (h : 5 ≤ (expensesOf txs).length) : detect_anomalies txs = anomaliesSpec txs := by
  have h' : ¬ (sortDesc (expensesOf txs)).length < 5 := by
    rw [sortDesc_length]
    omega
  have havg : ((sortDesc (expensesOf txs)).map (fun e => e.amount)).sum
      / (((sortDesc (expensesOf txs)).length : ℕ) : ℚ) = meanExpense txs := by
    rw [sortDesc_amount_sum, sortDesc_length, meanExpense]
  simp only [detect_anomalies, anomaliesSpec]
  rw [if_neg h', havg]
  rw [foldl_guard_append (fun e => e.amount > meanExpense txs * 2)
    (mkAnomaly (meanExpense txs))]
  simp only [List.nil_append]
  congr 1
  apply List.filter_congr
  intro e _
  simp [mul_comm]

theorem expensePct_init (acct : Account) : expensePct initExpenseData acct = 0 := by
  unfold expensePct
  split
  · simp [initExpenseData]
  · rfl

theorem rule6_tips_len (acct : Account) : (rule6 acct).2.length ≤ 1 := by
  simp only [rule6]
  split
  · split
    · simp
    · split
      · simp
      · split <;> simp
  · simp

/-- C1: with fewer than 5 expense records the anomaly detector returns the
empty list; otherwise it flags, among the 10 most-recent expenses (timestamp
descending), exactly those whose amount exceeds twice the mean of all expense
amounts, each record carrying the amount, defaulted description, date,
category and a message embedding the mean; on the spec's example
[10,10,10,10,100] the mean is 28 and only the 100 is flagged. -/
theorem anomaly_detector_correct (txs : List Transaction) :
    ((expensesOf txs).length < 5 → detect_anomalies txs = [])
    ∧ (5 ≤ (expensesOf txs).length → detect_anomalies txs = anomaliesSpec txs)
    ∧ (meanExpense ex5 = 28 ∧ detect_anomalies ex5 = [mkAnomaly 28 tx100]) := by
  refine ⟨?_, fun h => detect_anomalies_eq txs h, mean_ex5_eval, detect_ex5_eval⟩
  intro h
  have h' : (sortDesc (expensesOf txs)).length < 5 := by rwa [sortDesc_length]
  simp only [detect_anomalies]
  rw [if_pos h']

/-- Witness for C1: the 5-element example satisfies the sample-size bound and
the detector matches its specification there. -/
theorem anomaly_detector_correct_witness :
    detect_anomalies ex5 = anomaliesSpec ex5 :=
  (anomaly_detector_correct ex5).2.1 (by decide)

/-- C7: the by-category rollup partitions the expense total — the values of
`by_category` always sum to `total_expenses`. -/
theorem category_rollup_partition (txs : List Transaction) (now : ℤ) :
    (((prepare_expense_data txs now).by_category).map Prod.snd).sum
      = (prepare_expense_data txs now).total_expenses := by
  have hinv := prep_foldl_inv now (expensesOf txs) initExpenseData
  simp only [prepare_expense_data]
  split
  · show (((expensesOf txs).foldl (prepStep now) initExpenseData).by_category.map Prod.snd).sum
      = ((expensesOf txs).foldl (prepStep now) initExpenseData).total_expenses
    rw [hinv.1, hinv.2]
    simp [initExpenseData]
  · rw [hinv.1, hinv.2]
    simp [initExpenseData]

/-- C8: the engine is a pure function of the transaction list, the account
figures and the frozen current time — identical inputs give identical
bundles. -/
theorem engine_deterministic (txs txs' : List Transaction) (acct acct' : Account)
    (now now' : ℤ) (h1 : txs = txs') (h2 : acct = acct') (h3 : now = now') :
    analyze_expenses_with_ai txs acct now = analyze_expenses_with_ai txs' acct' now' := by
  subst h1
  subst h2
  subst h3
  rfl

/-- Witness for C8 at a concrete repeated invocation. -/
theorem engine_deterministic_witness :
    analyze_expenses_with_ai ex5 acct0 0 = analyze_expenses_with_ai ex5 acct0 0 :=
  engine_deterministic ex5 ex5 acct0 acct0 0 0 rfl rfl rfl

/-- C9: an engine invocation, viewed as a transformer of the mutable world,
leaves the account figures and every transaction record unchanged — the
source only reads them. -/
theorem engine_frame (s : WorldState) (now : ℤ) :
    (runEngine s now).1.account.total_amount = s.account.total_amount
    ∧ (runEngine s now).1.account.current_balance = s.account.current_balance
    ∧ (runEngine s now).1.account.target_amount = s.account.target_amount
    ∧ (runEngine s now).1.transactions = s.transactions :=
  ⟨rfl, rfl, rfl, rfl⟩

/-- C10: addition-kind transactions never influence the output — collections
with the same expense-kind sublist yield the same bundle, because both
aggregation and anomaly detection filter to expenses first. -/
theorem additions_ignored (txs1 txs2 : List Transaction) (acct : Account) (now : ℤ)
    (h : expensesOf txs1 = expensesOf txs2) :
    analyze_expenses_with_ai txs1 acct now = analyze_expenses_with_ai txs2 acct now := by
  unfold analyze_expenses_with_ai prepare_expense_data detect_anomalies
  rw [h]

/-- Witness for C10: adding an addition-kind record changes nothing. -/
theorem additions_ignored_witness :
    analyze_expenses_with_ai addOnly acct0 0 = analyze_expenses_with_ai [] acct0 0 :=
  additions_ignored addOnly [] acct0 0 (by decide)

theorem take5_head (x : String) (l : List String) : ((x :: l).take 5).head? = some x := by simp

theorem take3_head (x : String) (l : List String) : ((x :: l).take 3).head? = some x := by simp

theorem backfill_take_head (x : String) (l : List String) :
    ((backfill (x :: l)).take 5).head? = some x := by
  obtain ⟨e, he⟩ := backfill_ex_append (x :: l)
  rw [he]
  simp

/-- C3: the spend-rate rule takes `expense_percentage` to be 0 when
`total_amount ≤ 0`; above 70% it emits the high-severity warning and the
reduce-15-20% tip (as the first entries), on (50,70] the medium warning and
the reduce-10% tip, and on (0,50] the praise message; on the spec's example
(750 of 1000, i.e. 75%) the high path is selected, not medium, not praise. -/
theorem spend_rate_rule (d : ExpenseData) (acct : Account) (anoms : List Anomaly) :
    (acct.total_amount ≤ 0 → expensePct d acct = 0)
    ∧ (expensePct d acct > 70 →
        (generate_rule_based_suggestions d acct anoms).warnings.head?
          = some ("🚨 You\x27ve spent " ++ fmt1 (expensePct d acct) ++ "% of your total funds!")
        ∧ (generate_rule_based_suggestions d acct anoms).tips.head?
          = some "Try to reduce daily expenses by 15-20% to stay within budget")
    ∧ (50 < expensePct d acct ∧ expensePct d acct ≤ 70 →
        (generate_rule_based_suggestions d acct anoms).warnings.head?
          = some ("⚠️ Your spending is at " ++ fmt1 (expensePct d acct)
              ++ "% - watch your expenses")
        ∧ (generate_rule_based_suggestions d acct anoms).tips.head?
          = some "Consider cutting non-essential expenses by 10%")
    ∧ (0 < expensePct d acct ∧ expensePct d acct ≤ 50 →
        (generate_rule_based_suggestions d acct anoms).praise.head?
          = some ("✅ Good job! You\x27re spending " ++ fmt1 (expensePct d acct)
              ++ "% - keep it controlled"))
    ∧ (expensePct d750 acct1000 = 75
       ∧ (generate_rule_based_suggestions d750 acct1000 []).warnings.head?
           = some "🚨 You\x27ve spent 75.0% of your total funds!"
       ∧ "⚠️ Your spending is at 75.0% - watch your expenses"
           ∉ (generate_rule_based_suggestions d750 acct1000 []).warnings
       ∧ (generate_rule_based_suggestions d750 acct1000 []).praise = []) := by
  refine ⟨?_, ?_, ?_, ?_, pct_d750_eval, ?_, ?_, praise_d750_eval⟩
  · intro h
    unfold expensePct
    rw [if_neg (not_lt.mpr h)]
  · intro hp
    constructor
    · simp only [generate_rule_based_suggestions]
      rw [rule1_high hp]
      exact take5_head _ _
    · simp only [generate_rule_based_suggestions]
      rw [rule1_high hp]
      exact backfill_take_head _ _
  · intro hp
    constructor
    · simp only [generate_rule_based_suggestions]
      rw [rule1_med hp.1 (not_lt.mpr hp.2)]
      exact take5_head _ _
    · simp only [generate_rule_based_suggestions]
      rw [rule1_med hp.1 (not_lt.mpr hp.2)]
      exact backfill_take_head _ _
  · intro hp
    simp only [generate_rule_based_suggestions]
    rw [rule1_low hp.1 (not_lt.mpr hp.2)]
    exact take3_head _ _
  · rw [warnings_d750_eval]
    rfl
  · rw [warnings_d750_eval]
    decide

/-- Witness for C3: the 75% example takes the high-severity path. -/
theorem spend_rate_rule_witness :
    (generate_rule_based_suggestions d750 acct1000 []).warnings.head?
      = some ("🚨 You\x27ve spent " ++ fmt1 (expensePct d750 acct1000)
          ++ "% of your total funds!")
    ∧ (generate_rule_based_suggestions d750 acct1000 []).tips.head?
      = some "Try to reduce daily expenses by 15-20% to stay within budget" :=
  (spend_rate_rule d750 acct1000 []).2.1 (by rw [pct_d750_eval]; norm_num)

/-- C2 (amended): every category whose share of a positive expense total
exceeds 30% is added to `overspending_categories` and receives exactly one
budget suggestion — the string `₹<amount×multiplier, no decimals> (reduce by
<complement>%)` with the multiplier from the fixed lookup (Food 0.7,
Shopping 0.6, Entertainment 0.7, Transport 0.8, default 0.8) — and the rule
emits the looked-up tip and a warning naming the percentage.  (The suggestion
embeds the capped amount, e.g. Food 400 of 1000 gives "₹280 (reduce by 30%)";
it does not equal the bare string "280".) -/
theorem category_rule (d : ExpenseData) (acct : Account) (anoms : List Anomaly)
    (cat : String) (amt : ℚ)
    (hnd : (d.by_category.map Prod.fst).Nodup)
    (hmem : (cat, amt) ∈ d.by_category)
    (htot : d.total_expenses > 0)
    (hpct : amt / d.total_expenses * 100 > 30) :
    cat ∈ (generate_rule_based_suggestions d acct anoms).overspending
    ∧ List.lookup cat (generate_rule_based_suggestions d acct anoms).budget_suggestions
        = some (specBudget cat amt)
    ∧ ((generate_rule_based_suggestions d acct anoms).budget_suggestions.filter
        (fun e => e.1 = cat)).length = 1
    ∧ specTipText cat ∈ candidateTips d acct anoms
    ∧ (cat ++ " is " ++ fmt0 (amt / d.total_expenses * 100) ++ "% of your total spending")
        ∈ candidateWarnings d acct anoms := by
  have hr2 := rule2_mem d.total_expenses d.by_category cat amt hmem hpct
  have hbu := rule2_budget_unique d.total_expenses d.by_category cat amt hnd hmem hpct
  have hG : rule2G d = rule2 d.total_expenses d.by_category := by simp [rule2G, htot]
  refine ⟨?_, ?_, ?_, ?_, ?_⟩
  · simp only [generate_rule_based_suggestions]
    rw [hG]
    exact hr2.1
  · simp only [generate_rule_based_suggestions]
    rw [hG, hbu.1, categoryAdvice_spec]
  · simp only [generate_rule_based_suggestions]
    rw [hG]
    exact hbu.2
  · have htip := hr2.2.2.1
    rw [categoryAdvice_spec] at htip
    simp only [candidateTips, hG, List.mem_append]
    exact Or.inl (Or.inl (Or.inl (Or.inr htip)))
  · simp only [candidateWarnings, hG, List.mem_append]
    exact Or.inl (Or.inl (Or.inr hr2.2.1))

/-- Witness for C2 at the spec's example (Food 400 of 1000). -/
theorem category_rule_witness :
    "Food" ∈ (generate_rule_based_suggestions dFood acct0 []).overspending
    ∧ List.lookup "Food" (generate_rule_based_suggestions dFood acct0 []).budget_suggestions
        = some (specBudget "Food" 400)
    ∧ ((generate_rule_based_suggestions dFood acct0 []).budget_suggestions.filter
        (fun e => e.1 = "Food")).length = 1
    ∧ specTipText "Food" ∈ candidateTips dFood acct0 []
    ∧ ("Food" ++ " is " ++ fmt0 (400 / dFood.total_expenses * 100)
        ++ "% of your total spending") ∈ candidateWarnings dFood acct0 [] :=
  category_rule dFood acct0 [] "Food" 400 (by decide) (by decide) (by decide) food_pct_eval

/-- Counterexample for C2 as stated: the Food budget suggestion is the full
string "₹280 (reduce by 30%)", not the bare "280" the claim asserts. -/
theorem category_rule_counterexample :
    List.lookup "Food" (generate_rule_based_suggestions dFood acct0 []).budget_suggestions
      = some "₹280 (reduce by 30%)"
    ∧ List.lookup "Food" (generate_rule_based_suggestions dFood acct0 []).budget_suggestions
      ≠ some "280" := by
  refine ⟨food_budget_eval, ?_⟩
  rw [food_budget_eval]
  decide

/-- C4 (amended): on the empty transaction collection the aggregator returns
the all-zero view with zero count and zero mean (the mean is set only under
the explicit `expense_count > 0` guard, so no division happens), the anomaly
detector returns the empty list, and the rule evaluator returns a non-empty
summary and at least 4 tips; when the account's target-progress rule emits no
tip (`target_amount ≤ 0`) those are exactly the first 4 generic tips.  (The
claim's "at least 4 generic tips" fails for accounts with an unmet savings
goal, where one of the 4 tips is the goal tip — see the counterexample.) -/
theorem empty_input_behavior (now : ℤ) (acct : Account) :
    prepare_expense_data [] now = initExpenseData
    ∧ detect_anomalies [] = []
    ∧ (analyze_expenses_with_ai [] acct now).summary ≠ ""
    ∧ 4 ≤ (analyze_expenses_with_ai [] acct now).tips.length
    ∧ (acct.target_amount ≤ 0 →
        (analyze_expenses_with_ai [] acct now).tips = default_tips.take 4) := by
  have hprep : prepare_expense_data [] now = initExpenseData := rfl
  have hdet : detect_anomalies [] = [] := rfl
  have hana : analyze_expenses_with_ai [] acct now
      = generate_rule_based_suggestions initExpenseData acct [] := by
    unfold analyze_expenses_with_ai
    rw [hprep, hdet]
  have hp := expensePct_init acct
  have hz : ¬ expensePct initExpenseData acct > 0 := by
    rw [hp]
    norm_num
  have h2G : rule2G initExpenseData = ([], [], [], []) := rfl
  have h3 : rule3T initExpenseData = [] := rfl
  have h5 : rule5WT [] = ([], []) := rfl
  have htips : (generate_rule_based_suggestions initExpenseData acct []).tips
      = (backfill (rule6 acct).2).take 5 := by
    simp only [generate_rule_based_suggestions]
    rw [rule1_zero hz, h2G, h3, h5]
    simp
  have hlen : (backfill (rule6 acct).2).length = 4 :=
    backfill_length_of_lt _ (by have := rule6_tips_len acct; omega)
  refine ⟨hprep, hdet, ?_, ?_, ?_⟩
  · rw [hana]
    simp only [generate_rule_based_suggestions]
    rw [hp]
    decide
  · rw [hana, htips, List.length_take, hlen]
    norm_num
  · intro h
    have h6 : rule6 acct = ([], []) := by
      simp only [rule6]
      rw [if_neg (not_lt.mpr h)]
    rw [hana, htips, h6]
    show (backfill ([] : List String)).take 5 = default_tips.take 4
    rw [backfill_eq]
    simp [List.take_take]

/-- Witness for C4 at a zero-target account. -/
theorem empty_input_behavior_witness :
    prepare_expense_data [] 0 = initExpenseData
    ∧ detect_anomalies [] = []
    ∧ (analyze_expenses_with_ai [] acct0 0).summary ≠ ""
    ∧ 4 ≤ (analyze_expenses_with_ai [] acct0 0).tips.length
    ∧ (analyze_expenses_with_ai [] acct0 0).tips = default_tips.take 4 := by
  have h := empty_input_behavior 0 acct0
  exact ⟨h.1, h.2.1, h.2.2.1, h.2.2.2.1, h.2.2.2.2 (by decide)⟩

/-- Counterexample for C4 as stated: with empty transactions but an account
holding an unmet savings goal, only 3 of the 4 returned tips are generic —
the claim's "at least 4 generic tips" fails. -/
theorem empty_input_counterexample :
    ((analyze_expenses_with_ai [] acctGoal 0).tips.filter
        (fun t => t ∈ default_tips)).length = 3
    ∧ ¬ 4 ≤ ((analyze_expenses_with_ai [] acctGoal 0).tips.filter
        (fun t => t ∈ default_tips)).length
    ∧ (analyze_expenses_with_ai [] acctGoal 0).tips.length = 4 :=
  empty_goal_eval

/-- C5: the final bundle truncates, without reordering, the collected tips to
the first 5 (after the backfill loop, which appends generic tips in listed
order until 4 exist), the warnings to the first 5, and the praise to the
first 3; a concrete input with 7 candidate tips yields exactly the first 5 in
their original relative order. -/
theorem truncation_and_backfill (d : ExpenseData) (acct : Account) (anoms : List Anomaly) :
    ((candidateTips d acct anoms).length < 4 →
      (generate_rule_based_suggestions d acct anoms).tips
        = (candidateTips d acct anoms
            ++ default_tips.take (4 - (candidateTips d acct anoms).length)).take 5)
    ∧ (4 ≤ (candidateTips d acct anoms).length →
      (generate_rule_based_suggestions d acct anoms).tips
        = (candidateTips d acct anoms).take 5)
    ∧ (generate_rule_based_suggestions d acct anoms).warnings
        = (candidateWarnings d acct anoms).take 5
    ∧ (generate_rule_based_suggestions d acct anoms).praise
        = (candidatePraise d acct).take 3
    ∧ ((candidateTips d7 acct7 [anom1]).length = 7
       ∧ (generate_rule_based_suggestions d7 acct7 [anom1]).tips.length = 5
       ∧ (generate_rule_based_suggestions d7 acct7 [anom1]).tips
           = (candidateTips d7 acct7 [anom1]).take 5) := by
  have hT : (generate_rule_based_suggestions d acct anoms).tips
      = (backfill (candidateTips d acct anoms)).take 5 := rfl
  refine ⟨?_, ?_, rfl, rfl, tips7_len_eval, tips7_take_eval.1, tips7_take_eval.2⟩
  · intro h
    rw [hT, backfill_eq, if_pos h]
  · intro h
    rw [hT, backfill_eq, if_neg (not_lt.mpr h)]

/-- Witness for C5: the 7-candidate input keeps exactly the first 5 tips. -/
theorem truncation_and_backfill_witness :
    (generate_rule_based_suggestions d7 acct7 [anom1]).tips
      = (candidateTips d7 acct7 [anom1]).take 5 :=
  (truncation_and_backfill d7 acct7 [anom1]).2.1 (by rw [tips7_len_eval]; norm_num)

/-- C6 (amended): a malformed (non-numeric) expense amount makes the engine
raise — a built-in `TypeError` from the first arithmetic use, there being no
`ComputationError` anywhere in the code — and the `home` view catches it and
substitutes the degraded default bundle; when every expense amount is
well-formed the engine completes and the view returns its bundle. -/
theorem engine_error_handling (txs : List TransactionE) (acct : Account) (now : ℤ) :
    ((∃ t ∈ txs, t.transaction_type = "expense" ∧ t.amount = none) →
       analyzeE txs acct now = .error "TypeError"
       ∧ homeInsights txs acct now = default_bundle)
    ∧ ((∀ t ∈ txs, t.transaction_type = "expense" → t.amount ≠ none) →
       analyzeE txs acct now
           = .ok (analyze_expenses_with_ai (txs.map toTransaction) acct now)
       ∧ homeInsights txs acct now
           = analyze_expenses_with_ai (txs.map toTransaction) acct now) := by
  constructor
  · intro h
    have he := analyzeE_err txs acct now h
    refine ⟨he, ?_⟩
    unfold homeInsights
    rw [he]
  · intro h
    have he := analyzeE_ok txs acct now h
    refine ⟨he, ?_⟩
    unfold homeInsights
    rw [he]

/-- Witness for C6: a malformed expense amount yields the fallback bundle; a
well-formed collection completes. -/
theorem engine_error_handling_witness :
    (analyzeE [badTx] acct0 0 = .error "TypeError"
     ∧ homeInsights [badTx] acct0 0 = default_bundle)
    ∧ (analyzeE [badAdd] acct0 0
         = .ok (analyze_expenses_with_ai ([badAdd].map toTransaction) acct0 0)
       ∧ homeInsights [badAdd] acct0 0
         = analyze_expenses_with_ai ([badAdd].map toTransaction) acct0 0) :=
  ⟨(engine_error_handling [badTx] acct0 0).1 (by decide),
   (engine_error_handling [badAdd] acct0 0).2 (by decide)⟩

/-- Counterexample for C6 as stated: the failure is a `TypeError`, not a
`ComputationError` (no such class exists in the code), and a malformed amount
on an addition-kind record does not make the engine fail at all. -/
theorem engine_error_counterexample :
    analyzeE [badTx] acct0 0 = .error "TypeError"
    ∧ analyzeE [badTx] acct0 0 ≠ .error "ComputationError"
    ∧ analyzeE [badAdd] acct0 0
        = .ok (analyze_expenses_with_ai ([badAdd].map toTransaction) acct0 0) := by
  have he := analyzeE_err [badTx] acct0 0 ⟨badTx, by simp, rfl, rfl⟩
  refine ⟨he, ?_, (analyzeE_ok [badAdd] acct0 0 (by decide))⟩
  rw [he]
  decide
